import Mathlib

/-
Verification of the throttle rate limiter (throttle.py).

The embedding models timestamps and durations as rationals, the shared
cache backend as a partial map from bucket keys to last-call timestamps,
the clock as an arbitrary function from read index to timestamp, and the
lock backend as a function saying whether the i-th acquisition succeeds.
-/

namespace Throttle

/-- The shared cache backend, modelled as a partial map from bucket keys to
last-call timestamps (rational seconds).  Absence means the record expired
or was never written. -/
def Cache : Type := String → Option ℚ

/-- cache.get with default 0, as used at throttle.py lines 126 and 161. -/
def cacheGet (c : Cache) (k : String) : ℚ :=
  (c k).getD 0

/-- cache.set writing a timestamp for a key (throttle.py lines 128 and 164).
The TTL argument is recorded separately in the operation trace. -/
def cacheSet (c : Cache) (k : String) (v : ℚ) : Cache :=
  fun k2 => if k2 = k then some v else c k2

/-- One cache-backend call, recorded so that gets and sets per evaluation
pass can be counted. -/
inductive CacheOp
  | get (k : String)
  | set (k : String) (value ttl : ℚ)
deriving DecidableEq

/-- The delay computed by the gate: max(lastTime + minimum - now, 0), from
throttle.py lines 126 and 161. -/
def gateDelay (c : Cache) (minimum now : ℚ) (k : String) : ℚ :=
  max (cacheGet c k + minimum - now) 0

/-- Result of one single-limit gate evaluation: the computed delay, the cache
after the evaluation, and the trace of backend calls made. -/
structure GateOut where
  delay : ℚ
  cache : Cache
  ops : List CacheOp

/-- Single-limit gate body, throttle.py lines 126-128: read the last call
time, compute the delay, and claim the slot (write now) exactly when the
delay is zero. -/
def single_gate (c : Cache) (minimum now expire : ℚ) (k : String) : GateOut :=
  let delay := gateDelay c minimum now k
  if delay = 0 then ⟨delay, cacheSet c k now, [CacheOp.get k, CacheOp.set k now expire]⟩
  else ⟨delay, c, [CacheOp.get k]⟩

/-- Multi-limit gate pass, throttle.py lines 156-164: walk the resolved
limits in order, skip keys already seen in this pass, stop at the first
positive delay without writing, and claim the slot then continue on a zero
delay.  Returns the final delay, the cache, and the backend-call trace. -/
def multi_gate : List (ℚ × String × ℚ) → Cache → ℚ → List String → ℚ × Cache × List CacheOp
  | [], c, _, _ => (0, c, [])
  | (minimum, k, expire) :: rest, c, now, seen =>
    if k ∈ seen then multi_gate rest c now seen
    else
      let delay := gateDelay c minimum now k
      if delay = 0 then
        let r := multi_gate rest (cacheSet c k now) now (k :: seen)
        (r.1, r.2.1, CacheOp.get k :: CacheOp.set k now expire :: r.2.2)
      else (delay, c, [CacheOp.get k])

/-- Python truthiness of a resolved bucket key: None and the empty string
are falsy, matching the checks at throttle.py lines 117 and 145. -/
def truthy : Option String → Bool
  | none => false
  | some s => !(s == "")

/-- Key resolution for a multi-limit invocation, throttle.py lines 140-145:
each limit carries the key its resolver produced for this call; limits whose
key is falsy are dropped. -/
def resolveLimits (ls : List (ℚ × Option String × ℚ)) : List (ℚ × String × ℚ) :=
  (ls.filter fun t => truthy t.2.1).map fun t => (t.1, t.2.1.getD "", t.2.2)

/-- Label attached to log lines and to the timeout error: the resolved key
for the single-limit variant, the list of resolved keys for the multi-limit
variant (throttle.py lines 100-103). -/
inductive Label
  | one (k : String)
  | many (ks : List String)
deriving DecidableEq

/-- Log calls made by the loop: the warning emitted before a timeout is
raised, and the info line before a retry sleep. -/
inductive LogEvent
  | warning (label : Label) (elapsed : ℚ)
  | retryInfo (label : Label) (delay : ℚ)
deriving DecidableEq

/-- The deadline helper, throttle.py lines 105-111: read now, and if the
elapsed time strictly exceeds the timeout, log a warning and raise
ThrottleTimeout carrying the label and the elapsed duration; otherwise
return now. -/
def nowCheck (timeout : ℚ) (label : Label) (start now : ℚ) :
    List LogEvent × Except (Label × ℚ) ℚ :=
  if now - start > timeout then
    ([LogEvent.warning label (now - start)], Except.error (label, now - start))
  else ([], Except.ok now)

/-- Outcome of one wrapped invocation.  The value constructor carries how
many times the wrapped function body ran (0 when the marker is returned).
The outOfFuel constructor is a model artifact for an unfinished loop. -/
inductive LoopOut (α : Type)
  | value (funcCalls : ℕ) (v : α)
  | throttleTimeout (label : Label) (elapsed : ℚ)
  | lockError
  | outOfFuel
deriving DecidableEq

/-- The single-limit retry loop, throttle.py lines 118-136.  clock i is the
value time() returns at its i-th call during this invocation; lockOk i says
whether the i-th lock acquisition succeeds (a failure raises the backend
error immediately); fuel bounds how many iterations the model unfolds. -/
def single_loop (minimum expire timeout : ℚ) (retry : Bool) (marker fv : α)
    (k : String) (lockOk : ℕ → Bool) (clock : ℕ → ℚ) (start : ℚ) :
    ℕ → ℕ → Cache → LoopOut α × Cache
  | 0, _, c => (LoopOut.outOfFuel, c)
  | fuel + 1, i, c =>
    if lockOk i then
      match nowCheck timeout (Label.one k) start (clock i) with
      | (_, Except.error e) => (LoopOut.throttleTimeout e.1 e.2, c)
      | (_, Except.ok now) =>
        let g := single_gate c minimum now expire k
        if g.delay = 0 then (LoopOut.value 1 fv, g.cache)
        else if retry then
          single_loop minimum expire timeout retry marker fv k lockOk clock start fuel (i + 1) c
        else (LoopOut.value 0 marker, c)
    else (LoopOut.lockError, c)

/-- A full single-limit invocation, throttle.py lines 114-136: resolve the
key; if it is falsy run the wrapped function immediately, otherwise record
start = time() (clock 0) and enter the retry loop.  fv is the value the
wrapped function returns. -/
def single_invoke (minimum expire timeout : ℚ) (retry : Bool) (marker fv : α)
    (key? : Option String) (lockOk : ℕ → Bool) (clock : ℕ → ℚ) (fuel : ℕ) (c : Cache) :
    LoopOut α × Cache :=
  if truthy key? then
    single_loop minimum expire timeout retry marker fv (key?.getD "") lockOk clock (clock 0) fuel 1 c
  else (LoopOut.value 1 fv, c)

/-- The multi-limit retry loop, throttle.py lines 148-172, over the already
resolved (dropped and keyed) limits.  A blocked pass keeps the cache the
gate returns: the set calls made for the zero-delay limits evaluated before
the blocking one persist in the shared cache (line 164 runs before the
break), both into the next iteration and into the no-retry return. -/
def multi_loop (limits : List (ℚ × String × ℚ)) (timeout : ℚ) (retry : Bool) (marker fv : α)
    (lockOk : ℕ → Bool) (clock : ℕ → ℚ) (start : ℚ) :
    ℕ → ℕ → Cache → LoopOut α × Cache
  | 0, _, c => (LoopOut.outOfFuel, c)
  | fuel + 1, i, c =>
    if lockOk i then
      match nowCheck timeout (Label.many (limits.map fun t => t.2.1)) start (clock i) with
      | (_, Except.error e) => (LoopOut.throttleTimeout e.1 e.2, c)
      | (_, Except.ok now) =>
        let g := multi_gate limits c now []
        if g.1 = 0 then (LoopOut.value 1 fv, g.2.1)
        else if retry then
          multi_loop limits timeout retry marker fv lockOk clock start fuel (i + 1) g.2.1
        else (LoopOut.value 0 marker, g.2.1)
    else (LoopOut.lockError, c)

/-- A full multi-limit invocation, throttle.py lines 139-172: resolve and
drop keys; if nothing remains run the wrapped function immediately,
otherwise enter the retry loop. -/
def multi_invoke (ls : List (ℚ × Option String × ℚ)) (timeout : ℚ) (retry : Bool)
    (marker fv : α) (lockOk : ℕ → Bool) (clock : ℕ → ℚ) (fuel : ℕ) (c : Cache) :
    LoopOut α × Cache :=
  let limits := resolveLimits ls
  if limits.isEmpty then (LoopOut.value 1 fv, c)
  else multi_loop limits timeout retry marker fv lockOk clock (clock 0) fuel 1 c

/-- Wrap-time failures of throttle(), lines 82-98: ZeroDivisionError from
1.0/float(l) when a rate is zero, AssertionError when more key resolvers
than limits, ValueError from max of an empty sequence when the limit list
is empty. -/
inductive WrapError
  | zeroDivision
  | assertionError
  | emptySequenceMax
deriving DecidableEq

/-- Python `x or d` for an optional numeric argument: the default is used
when the argument is absent or equals zero (both falsy). -/
def pyOr (t? : Option ℚ) (d : ℚ) : ℚ :=
  match t? with
  | none => d
  | some t => if t = 0 then d else t

/-- Wrap-time configuration for a scalar limit: minimum interval, per-limit
expiry and effective overall timeout (throttle.py lines 82, 94-97). -/
structure SingleConfig where
  minimum : ℚ
  expire : ℚ
  timeout : ℚ
deriving DecidableEq

/-- Wrap-time normalization for a scalar rate, throttle.py lines 82 and
93-97: minimum = 1/limit (ZeroDivisionError when limit = 0),
expire = max(10 * minimum, timeout or 10),
effective timeout = timeout or max(10, minimum * 10). -/
def normalize_single (limit : ℚ) (t? : Option ℚ) : Except WrapError SingleConfig :=
  if limit = 0 then Except.error WrapError.zeroDivision
  else
    let minimum := 1 / limit
    Except.ok ⟨minimum, max (10 * minimum) (pyOr t? 10), pyOr t? (max 10 (minimum * 10))⟩

/-- The key argument as the caller passes it: a single resolver function
(possibly None) or a list of resolver functions.  Resolver functions are
opaque values of type kappa here. -/
inductive KeyArg (κ : Type)
  | one (k? : Option κ)
  | many (ks : List κ)

/-- Coercion of the key argument at throttle.py lines 85-86:
key = [key] if key else [] when it is not already a list. -/
def coerceKeys : KeyArg κ → List κ
  | KeyArg.one none => []
  | KeyArg.one (some k) => [k]
  | KeyArg.many ks => ks

/-- Right padding with a fill element, the effect of izip_longest with
fillvalue when the key list is shorter than the limit list. -/
def padTo (fill : κ) (n : ℕ) (ks : List κ) : List κ :=
  ks ++ List.replicate (n - ks.length) fill

/-- Pointwise zip of three lists, stopping at the shortest. -/
def zip3 : List α → List β → List γ → List (α × β × γ)
  | a :: as, b :: bs, c :: cs => (a, b, c) :: zip3 as bs cs
  | _, _, _ => []

/-- Maximum of a list of rationals.  The empty case is unreachable in
normalize_multi (Python max([]) raises ValueError, modelled by the
emptySequenceMax guard before this is used). -/
def listMax : List ℚ → ℚ
  | [] => 0
  | x :: xs => xs.foldl max x

/-- Wrap-time configuration for a list of limits: the ordered
(minimum, key resolver, expire) triples and the effective overall
timeout (throttle.py lines 84-97). -/
structure MultiConfig (κ : Type) where
  limits : List (ℚ × κ × ℚ)
  timeout : ℚ
deriving DecidableEq

/-- Wrap-time normalization for a list of rates, throttle.py lines 82-97,
with failures in source order: the assertion len(limit) >= len(key), then
ZeroDivisionError on a zero rate, then ValueError from max([]) on an empty
limit list.  fill is the default resolver cachekey_static used as the
izip_longest fill value. -/
def normalize_multi (fill : κ) (limits : List ℚ) (key : KeyArg κ) (t? : Option ℚ) :
    Except WrapError (MultiConfig κ) :=
  let ks := coerceKeys key
  if limits.length < ks.length then Except.error WrapError.assertionError
  else if limits.any fun l => l == 0 then Except.error WrapError.zeroDivision
  else if limits.isEmpty then Except.error WrapError.emptySequenceMax
  else
    let minimum := limits.map fun l => 1 / l
    let maximum := listMax minimum
    let tO := pyOr t? 10
    let expire := minimum.map fun m => max (10 * m) tO
    Except.ok ⟨zip3 minimum (padTo fill limits.length ks) expire,
      pyOr t? (max 10 (maximum * 10))⟩

/-- True exactly on a successful Except. -/
def exceptOk : Except ε α → Bool
  | Except.ok _ => true
  | Except.error _ => false

/-- Predicate selecting get operations on a given key. -/
def isGetOn (k : String) : CacheOp → Bool
  | CacheOp.get k2 => k2 == k
  | _ => false

/-- Predicate selecting set operations on a given key. -/
def isSetOn (k : String) : CacheOp → Bool
  | CacheOp.set k2 _ _ => k2 == k
  | _ => false

/-- Number of get calls on a key in a backend-call trace. -/
def countGet (ops : List CacheOp) (k : String) : ℕ :=
  (ops.filter (isGetOn k)).length

/-- Number of set calls on a key in a backend-call trace. -/
def countSet (ops : List CacheOp) (k : String) : ℕ :=
  (ops.filter (isSetOn k)).length

theorem single_gate_delay_eq (c : Cache) (minimum now expire : ℚ) (k : String) :
    (single_gate c minimum now expire k).delay = gateDelay c minimum now k := by
  simp only [single_gate]
  split <;> simp_all

theorem single_gate_zero (c : Cache) (minimum now expire : ℚ) (k : String)
    (h : gateDelay c minimum now k = 0) :
    single_gate c minimum now expire k
      = ⟨gateDelay c minimum now k, cacheSet c k now, [CacheOp.get k, CacheOp.set k now expire]⟩ := by
  simp only [single_gate]
  split <;> simp_all

theorem single_gate_pos (c : Cache) (minimum now expire : ℚ) (k : String)
    (h : gateDelay c minimum now k ≠ 0) :
    single_gate c minimum now expire k = ⟨gateDelay c minimum now k, c, [CacheOp.get k]⟩ := by
  simp only [single_gate]
  split <;> simp_all

theorem countGet_cons (o : CacheOp) (ops : List CacheOp) (k : String) :
    countGet (o :: ops) k
      = if isGetOn k o then countGet ops k + 1 else countGet ops k := by
  simp only [countGet, List.filter_cons]
  split <;> simp

theorem countSet_cons (o : CacheOp) (ops : List CacheOp) (k : String) :
    countSet (o :: ops) k
      = if isSetOn k o then countSet ops k + 1 else countSet ops k := by
  simp only [countSet, List.filter_cons]
  split <;> simp

theorem multi_gate_ops_bound (ls : List (ℚ × String × ℚ)) (now : ℚ) (k : String) :
    ∀ (c : Cache) (seen : List String),
      (k ∈ seen → countGet (multi_gate ls c now seen).2.2 k = 0
        ∧ countSet (multi_gate ls c now seen).2.2 k = 0)
      ∧ countGet (multi_gate ls c now seen).2.2 k ≤ 1
      ∧ countSet (multi_gate ls c now seen).2.2 k ≤ 1 := by
  induction ls with
  | nil =>
    intro c seen
    simp [multi_gate, countGet, countSet]
  | cons hd tl ih =>
    intro c seen
    obtain ⟨m, k2, e⟩ := hd
    by_cases hmem : k2 ∈ seen
    · simpa [multi_gate, hmem] using ih c seen
    · by_cases hd0 : gateDelay c m now k2 = 0
      · have hrec := ih (cacheSet c k2 now) (k2 :: seen)
        by_cases hkk : k = k2
        · subst hkk
          have h0 := hrec.1 (List.mem_cons_self k seen)
          refine ⟨fun hk => absurd hk hmem, ?_, ?_⟩ <;>
            simp [multi_gate, hmem, hd0, countGet_cons, countSet_cons, isGetOn, isSetOn,
              h0.1, h0.2]
        · have hkk2 : ¬ (k2 == k) = true := by
            simp [beq_iff_eq]
            exact fun hx => hkk hx.symm
          refine ⟨fun hk => ?_, ?_, ?_⟩
          · have h0 := hrec.1 (List.mem_cons_of_mem k2 hk)
            simp [multi_gate, hmem, hd0, countGet_cons, countSet_cons, isGetOn, isSetOn,
              hkk2, h0.1, h0.2]
          · simp [multi_gate, hmem, hd0, countGet_cons, countSet_cons, isGetOn, isSetOn,
              hkk2, hrec.2.1]
          · simp [multi_gate, hmem, hd0, countGet_cons, countSet_cons, isGetOn, isSetOn,
              hkk2, hrec.2.2]
      · refine ⟨fun hk => ?_, ?_, ?_⟩
        · have hkk : ¬ (k2 == k) = true := by
            simp [beq_iff_eq]
            exact fun hx => hmem (hx ▸ hk)
          simp [multi_gate, hmem, hd0, countGet_cons, countSet_cons, isGetOn, isSetOn,
            countGet, countSet, hkk]
        · by_cases hkk : (k2 == k) = true <;>
            simp [multi_gate, hmem, hd0, countGet_cons, countSet_cons, isGetOn, isSetOn,
              countGet, countSet, hkk]
        · simp [multi_gate, hmem, hd0, countGet_cons, countSet_cons, isGetOn, isSetOn,
            countGet, countSet]

/-- C1: Single-limit gate evaluation: with lastTime = cache.get(key, 0) the
computed delay equals max(lastTime + minimumInterval - now, 0); the gate
performs cache.set(key, now, expiry) and grants the permit exactly when the
delay is zero, and makes no write when the delay is positive; a bucket
record written at timestamp t denies a call at now = t + minimumInterval -
eps and permits one at now = t + minimumInterval + eps, for any eps > 0. -/
theorem C1_single_gate_eval (c : Cache) (minimum expire now t ε : ℚ) (k : String)
    (hrec : c k = some t) (hε : 0 < ε) :
    (single_gate c minimum now expire k).delay = max (cacheGet c k + minimum - now) 0
    ∧ ((single_gate c minimum now expire k).delay = 0 ↔
        (single_gate c minimum now expire k).ops = [CacheOp.get k, CacheOp.set k now expire]
        ∧ (single_gate c minimum now expire k).cache = cacheSet c k now)
    ∧ (0 < (single_gate c minimum now expire k).delay →
        (single_gate c minimum now expire k).ops = [CacheOp.get k]
        ∧ (single_gate c minimum now expire k).cache = c)
    ∧ 0 < (single_gate c minimum (t + minimum - ε) expire k).delay
    ∧ (single_gate c minimum (t + minimum + ε) expire k).delay = 0 := by
  have hget : cacheGet c k = t := by simp [cacheGet, hrec]
  refine ⟨?_, ?_, ?_, ?_, ?_⟩
  · rw [single_gate_delay_eq, gateDelay]
  · by_cases h : gateDelay c minimum now k = 0
    · simp [single_gate_zero c minimum now expire k h, h]
    · simp [single_gate_pos c minimum now expire k h, h]
  · intro hpos
    have h : gateDelay c minimum now k ≠ 0 := by
      rw [single_gate_delay_eq] at hpos
      exact ne_of_gt hpos
    simp [single_gate_pos c minimum now expire k h]
  · rw [single_gate_delay_eq]
    have harith : cacheGet c k + minimum - (t + minimum - ε) = ε := by
      rw [hget]; ring
    rw [gateDelay, harith, max_eq_left hε.le]
    exact hε
  · rw [single_gate_delay_eq]
    have harith : cacheGet c k + minimum - (t + minimum + ε) = -ε := by
      rw [hget]; ring
    rw [gateDelay, harith, max_eq_right (by linarith)]

/-- C2: Multi-limit gate pass: on a not yet seen key, a positive computed
delay stops the pass immediately with that delay as the pass result,
writing no slot for that limit or any later one (the trace holds only that
limit's get); a zero computed delay claims the slot (set) and continues
with the rest of the limits in order. -/
theorem C2_multi_gate_pass (minimum expire now : ℚ) (k : String)
    (rest : List (ℚ × String × ℚ)) (c : Cache) (seen : List String)
    (hk : k ∉ seen) :
    (0 < gateDelay c minimum now k →
      multi_gate ((minimum, k, expire) :: rest) c now seen
        = (gateDelay c minimum now k, c, [CacheOp.get k]))
    ∧ (gateDelay c minimum now k = 0 →
      multi_gate ((minimum, k, expire) :: rest) c now seen
        = ((multi_gate rest (cacheSet c k now) now (k :: seen)).1,
           (multi_gate rest (cacheSet c k now) now (k :: seen)).2.1,
           CacheOp.get k :: CacheOp.set k now expire
             :: (multi_gate rest (cacheSet c k now) now (k :: seen)).2.2)) := by
  constructor
  · intro h
    have hne : gateDelay c minimum now k ≠ 0 := ne_of_gt h
    simp [multi_gate, hk, hne]
  · intro h
    simp [multi_gate, hk, h]

/-- C3: Within one multi-limit pass, a limit whose key was already seen is
skipped entirely (no backend call, no state change, so the earliest-listed
limit for a key is the evaluated one), and for each key the pass makes at
most one get and at most one set. -/
theorem C3_duplicate_key_skipped (ls rest : List (ℚ × String × ℚ)) (m e now : ℚ)
    (k dup : String) (c c2 : Cache) (seen : List String) (hdup : dup ∈ seen) :
    multi_gate ((m, dup, e) :: rest) c2 now seen = multi_gate rest c2 now seen
    ∧ countGet (multi_gate ls c now []).2.2 k ≤ 1
    ∧ countSet (multi_gate ls c now []).2.2 k ≤ 1 :=
  ⟨by simp [multi_gate, hdup],
   (multi_gate_ops_bound ls now k c []).2.1,
   (multi_gate_ops_bound ls now k c []).2.2⟩

/-- C4: In every retry-loop iteration the deadline check comes right after
lock acquisition and before the gate: when now - start strictly exceeds the
timeout, the helper logs a warning and raises ThrottleTimeout carrying the
resolved key (single) or the resolved key list (multi) together with the
elapsed duration, and the loop ends there with no further retries; when
now - start is within the timeout no ThrottleTimeout arises in that
iteration and the gate is evaluated. -/
theorem C4_deadline_check (minimum expire timeout : ℚ) (retry : Bool) (marker fv : α)
    (k : String) (limits : List (ℚ × String × ℚ)) (lockOk : ℕ → Bool) (clock : ℕ → ℚ)
    (start : ℚ) (fuel i : ℕ) (c : Cache) (hlock : lockOk i = true) :
    (clock i - start > timeout →
      nowCheck timeout (Label.one k) start (clock i)
          = ([LogEvent.warning (Label.one k) (clock i - start)],
             Except.error (Label.one k, clock i - start))
        ∧ single_loop minimum expire timeout retry marker fv k lockOk clock start (fuel + 1) i c
          = (LoopOut.throttleTimeout (Label.one k) (clock i - start), c)
        ∧ multi_loop limits timeout retry marker fv lockOk clock start (fuel + 1) i c
          = (LoopOut.throttleTimeout (Label.many (limits.map fun t => t.2.1))
              (clock i - start), c))
    ∧ (clock i - start ≤ timeout →
      nowCheck timeout (Label.one k) start (clock i) = ([], Except.ok (clock i))
        ∧ single_loop minimum expire timeout retry marker fv k lockOk clock start (fuel + 1) i c
          = (if (single_gate c minimum (clock i) expire k).delay = 0 then
               (LoopOut.value 1 fv, (single_gate c minimum (clock i) expire k).cache)
             else if retry then
               single_loop minimum expire timeout retry marker fv k lockOk clock start fuel
                 (i + 1) c
             else (LoopOut.value 0 marker, c))
        ∧ multi_loop limits timeout retry marker fv lockOk clock start (fuel + 1) i c
          = (if (multi_gate limits c (clock i) []).1 = 0 then
               (LoopOut.value 1 fv, (multi_gate limits c (clock i) []).2.1)
             else if retry then
               multi_loop limits timeout retry marker fv lockOk clock start fuel (i + 1)
                 (multi_gate limits c (clock i) []).2.1
             else (LoopOut.value 0 marker, (multi_gate limits c (clock i) []).2.1))) := by
  constructor
  · intro h
    refine ⟨?_, ?_, ?_⟩
    · simp [nowCheck, h]
    · simp [single_loop, hlock, nowCheck, h]
    · simp [multi_loop, hlock, nowCheck, h]
  · intro h
    have h2 : ¬ (clock i - start > timeout) := not_lt.mpr h
    refine ⟨?_, ?_, ?_⟩
    · simp [nowCheck, h2]
    · simp [single_loop, hlock, nowCheck, h2]
    · simp [multi_loop, hlock, nowCheck, h2]

/-- C5: With retry disabled, when the gate computes a positive delay the
wrapped function body never runs (funcCalls = 0) and the configured marker
is returned as a normal value, in both the single-limit and the multi-limit
variants.  A blocked single-limit pass writes nothing, so its cache is
unchanged; a blocked multi-limit pass hands back the cache the gate
returns, which retains the set calls made for the zero-delay limits
evaluated before the blocking one. -/
theorem C5_noretry_marker (minimum expire timeout : ℚ) (marker fv : α)
    (key? : Option String) (ls : List (ℚ × Option String × ℚ)) (lockOk : ℕ → Bool)
    (clock : ℕ → ℚ) (fuel : ℕ) (c : Cache)
    (hkey : truthy key? = true) (hlock : lockOk 1 = true)
    (hdead : clock 1 - clock 0 ≤ timeout)
    (hdelay : 0 < (single_gate c minimum (clock 1) expire (key?.getD "")).delay)
    (hres : (resolveLimits ls).isEmpty = false)
    (hmdelay : 0 < (multi_gate (resolveLimits ls) c (clock 1) []).1) :
    single_invoke minimum expire timeout false marker fv key? lockOk clock (fuel + 1) c
      = (LoopOut.value 0 marker, c)
    ∧ multi_invoke ls timeout false marker fv lockOk clock (fuel + 1) c
      = (LoopOut.value 0 marker, (multi_gate (resolveLimits ls) c (clock 1) []).2.1) := by
  have h2 : ¬ (clock 1 - clock 0 > timeout) := not_lt.mpr hdead
  constructor
  · have hne : ¬ (single_gate c minimum (clock 1) expire (key?.getD "")).delay = 0 :=
      ne_of_gt hdelay
    simp [single_invoke, hkey, single_loop, hlock, nowCheck, h2, hne]
  · have hne : ¬ (multi_gate (resolveLimits ls) c (clock 1) []).1 = 0 :=
      ne_of_gt hmdelay
    simp [multi_invoke, hres, multi_loop, hlock, nowCheck, h2, hne]

/-- C6: When every acquisition of the shared lock fails, a throttled
invocation ends with the lock backend error and never with
ThrottleTimeout, whatever the configured timeout; the failure propagates
from the first iteration, the wrapped body never runs, and nothing retries
it, in both variants. -/
theorem C6_lock_failure (minimum expire timeout : ℚ) (retry : Bool) (marker fv : α)
    (key? : Option String) (ls : List (ℚ × Option String × ℚ)) (lockOk : ℕ → Bool)
    (clock : ℕ → ℚ) (fuel : ℕ) (c : Cache)
    (hlock : ∀ j, lockOk j = false) (hkey : truthy key? = true)
    (hres : (resolveLimits ls).isEmpty = false) :
    single_invoke minimum expire timeout retry marker fv key? lockOk clock (fuel + 1) c
      = (LoopOut.lockError, c)
    ∧ multi_invoke ls timeout retry marker fv lockOk clock (fuel + 1) c
      = (LoopOut.lockError, c)
    ∧ (∀ l e2,
        (single_invoke minimum expire timeout retry marker fv key? lockOk clock (fuel + 1)
            c).1
          ≠ LoopOut.throttleTimeout l e2)
    ∧ (∀ l e2,
        (multi_invoke ls timeout retry marker fv lockOk clock (fuel + 1) c).1
          ≠ LoopOut.throttleTimeout l e2) := by
  have h1 : single_invoke minimum expire timeout retry marker fv key? lockOk clock (fuel + 1) c
      = (LoopOut.lockError, c) := by
    simp [single_invoke, hkey, single_loop, hlock 1]
  have h2 : multi_invoke ls timeout retry marker fv lockOk clock (fuel + 1) c
      = (LoopOut.lockError, c) := by
    simp [multi_invoke, hres, multi_loop, hlock 1]
  refine ⟨h1, h2, ?_, ?_⟩
  · intro l e2
    rw [h1]
    simp
  · intro l e2
    rw [h2]
    simp

/-- C9: When the resolved bucket key is falsy (single limit), or every
multi-limit key resolves falsy, the wrapped function runs immediately and
unthrottled: the result is its value with one body execution, the cache is
untouched, and the outcome does not depend on the lock backend, the clock
or the fuel, so no lock acquisition or gate evaluation takes place. -/
theorem C9_optout_runs_unthrottled (minimum expire timeout : ℚ) (retry : Bool)
    (marker fv : α) (key? : Option String) (ls : List (ℚ × Option String × ℚ))
    (lockOk : ℕ → Bool) (clock : ℕ → ℚ) (fuel : ℕ) (c : Cache)
    (hkey : truthy key? = false) (hls : ∀ x ∈ ls, truthy x.2.1 = false) :
    single_invoke minimum expire timeout retry marker fv key? lockOk clock fuel c
      = (LoopOut.value 1 fv, c)
    ∧ multi_invoke ls timeout retry marker fv lockOk clock fuel c
      = (LoopOut.value 1 fv, c) := by
  constructor
  · simp [single_invoke, hkey]
  · have hnil : resolveLimits ls = [] := by
      rw [resolveLimits]
      have : ls.filter (fun t => truthy t.2.1) = [] := by
        rw [List.filter_eq_nil_iff]
        intro a ha
        simp [hls a ha]
      rw [this, List.map_nil]
    simp [multi_invoke, hnil]

theorem pyOr_timeout_le_expire (t? : Option ℚ) (m : ℚ) :
    pyOr t? (max 10 (m * 10)) ≤ max (10 * m) (pyOr t? 10) := by
  have hcomm : max 10 (m * 10) ≤ max (10 * m) 10 := by
    rw [max_comm, mul_comm]
  cases t? with
  | none => simpa [pyOr] using hcomm
  | some u =>
    by_cases hu0 : u = 0
    · subst hu0
      simpa [pyOr] using hcomm
    · simp only [pyOr, if_neg hu0]
      exact le_max_right _ _

theorem zip3_map_mem (f : ℚ → ℚ) :
    ∀ (as : List ℚ) (bs : List κ) (x : ℚ × κ × ℚ),
      x ∈ zip3 as bs (as.map f) → x.2.2 = f x.1 := by
  intro as
  induction as with
  | nil =>
    intro bs x hx
    simp [zip3] at hx
  | cons a as ih =>
    intro bs x hx
    cases bs with
    | nil => simp [zip3] at hx
    | cons b bs =>
      simp only [List.map_cons, zip3, List.mem_cons] at hx
      rcases hx with h | h
      · subst h; rfl
      · exact ih bs x h

/-- C7 counterexample: a strictly negative rate does not fail at wrap-time.
Python computes 1.0/float(-1) = -1.0 without error, so normalization
succeeds for the scalar rate -1 and for the rate list [-1], contradicting
the claim that construction fails when a supplied rate is negative. -/
theorem C7_counterexample :
    exceptOk (normalize_single (-1) none) = true
    ∧ exceptOk (normalize_multi (0 : ℕ) [-1] (KeyArg.many []) none) = true := by
  constructor <;> decide

/-- C7 amended: wrap-time construction fails exactly when a supplied rate
is zero (division by zero), or, in the list form, when more key resolvers
are supplied than limits (the assertion), or when the limit list is empty
(max over an empty sequence); strictly negative rates are accepted.  In
particular construction succeeds for every nonempty configuration whose
rates are all nonzero with no more key resolvers than limits. -/
theorem C7_amended_wrap_errors (fill : κ) (l : ℚ) (t? : Option ℚ) (limits : List ℚ)
    (key : KeyArg κ) :
    (exceptOk (normalize_single l t?) = true ↔ l ≠ 0)
    ∧ (exceptOk (normalize_multi fill limits key t?) = true ↔
        (coerceKeys key).length ≤ limits.length ∧ limits ≠ [] ∧ ∀ x ∈ limits, x ≠ 0) := by
  constructor
  · by_cases h : l = 0 <;> simp [normalize_single, exceptOk, h]
  · by_cases h1 : limits.length < (coerceKeys key).length
    · simp only [normalize_multi, if_pos h1, exceptOk]
      simp
      omega
    · by_cases h2 : (limits.any fun l => l == 0) = true
      · simp only [normalize_multi, if_neg h1, if_pos h2, exceptOk]
        simp only [List.any_eq_true, beq_iff_eq] at h2
        obtain ⟨x, hx, hx0⟩ := h2
        refine ⟨fun hco => absurd hco (by simp), ?_⟩
        rintro ⟨-, -, hall⟩
        exact absurd hx0 (hall x hx)
      · by_cases h3 : limits.isEmpty = true
        · have hnil : limits = [] := by
            cases limits with
            | nil => rfl
            | cons a as => simp [List.isEmpty] at h3
          subst hnil
          simp only [normalize_multi, exceptOk]
          constructor
          · intro hco
            split at hco <;> simp_all
          · rintro ⟨-, hne, -⟩
            exact absurd rfl hne
        · have hne : limits ≠ [] := by
            intro hc
            subst hc
            simp at h3
          have hall : ∀ x ∈ limits, x ≠ 0 := by
            intro x hx hx0
            apply h2
            simp only [List.any_eq_true, beq_iff_eq]
            exact ⟨x, hx, hx0⟩
          simp only [normalize_multi, if_neg h1, if_neg h2, if_neg h3, exceptOk]
          exact ⟨fun _ => ⟨not_lt.mp h1, hne, hall⟩, fun _ => trivial⟩

/-- C8 counterexample: with the rates [1/10, 1] and no caller-supplied
timeout, the effective timeout is max(10, 10 * 10) = 100, yet the second
limit gets expiry max(10 * 1, 10) = 10, not max(10 * 1, 100) = 100 as the
claim requires: the code computes expiry from (timeout or 10), the bare
default, not from the derived effective timeout. -/
theorem C8_counterexample :
    normalize_multi (0 : ℕ) [1/10, 1] (KeyArg.many []) none
      = Except.ok ⟨[(10, 0, 100), (1, 0, 10)], 100⟩
    ∧ ¬ ((10 : ℚ) = max (10 * 1) 100) := by
  constructor
  · rw [normalize_multi]
    norm_num [coerceKeys, listMax, pyOr, padTo, zip3]
  · norm_num

/-- C8 amended: each limit's expiry equals max(10 * minimumInterval, T)
where T is the caller-supplied timeout when truthy and the bare default 10
otherwise (not the derived effective timeout); hence expiry is at least
10 * minimumInterval and at least T; the single-limit expiry is always at
least the effective timeout, and a multi-limit expiry is at least the
effective timeout whenever the timeout was caller-supplied and nonzero. -/
theorem C8_amended_expiry (fill : κ) (limits : List ℚ) (key : KeyArg κ) (t? : Option ℚ)
    (l : ℚ) (cfg : MultiConfig κ) (scfg : SingleConfig)
    (hm : normalize_multi fill limits key t? = Except.ok cfg)
    (hs : normalize_single l t? = Except.ok scfg) :
    (∀ trip ∈ cfg.limits,
        trip.2.2 = max (10 * trip.1) (pyOr t? 10)
        ∧ 10 * trip.1 ≤ trip.2.2
        ∧ pyOr t? 10 ≤ trip.2.2
        ∧ (∀ u, t? = some u → u ≠ 0 → cfg.timeout ≤ trip.2.2))
    ∧ scfg.expire = max (10 * scfg.minimum) (pyOr t? 10)
    ∧ 10 * scfg.minimum ≤ scfg.expire
    ∧ scfg.timeout ≤ scfg.expire := by
  have hpy : ∀ u, t? = some u → u ≠ 0 → pyOr t? 10 = u ∧ ∀ d, pyOr t? d = u := by
    intro u hu hu0
    subst hu
    exact ⟨by simp [pyOr, hu0], fun d => by simp [pyOr, hu0]⟩
  constructor
  · rw [normalize_multi] at hm
    split at hm
    · exact absurd hm (by simp)
    · split at hm
      · exact absurd hm (by simp)
      · split at hm
        · exact absurd hm (by simp)
        · rw [Except.ok.injEq] at hm
          subst hm
          intro trip htrip
          have hexp : trip.2.2 = max (10 * trip.1) (pyOr t? 10) :=
            zip3_map_mem (fun m => max (10 * m) (pyOr t? 10))
              (limits.map fun l => 1 / l) (padTo fill limits.length (coerceKeys key))
              trip htrip
          refine ⟨hexp, ?_, ?_, ?_⟩
          · rw [hexp]; exact le_max_left _ _
          · rw [hexp]; exact le_max_right _ _
          · intro u hu hu0
            obtain ⟨hp10, hpall⟩ := hpy u hu hu0
            rw [hexp, hp10]
            calc MultiConfig.timeout ⟨_, _⟩ = u := hpall _
              _ ≤ max (10 * trip.1) u := le_max_right _ _
  · rw [normalize_single] at hs
    split at hs
    · exact absurd hs (by simp)
    · rw [Except.ok.injEq] at hs
      subst hs
      exact ⟨rfl, le_max_left _ _, pyOr_timeout_le_expire t? (1 / l)⟩

/-- C10: An explicitly supplied timeout of 0, the only falsy numeric
value, configures exactly as an absent timeout: the normalizations agree,
the effective overall timeout becomes max(10, minimumInterval * 10), and
the expiry computation falls back to the 10-second floor, so a zero
overall deadline cannot be configured. -/
theorem C10_falsy_timeout (l : ℚ) (fill : κ) (limits : List ℚ) (key : KeyArg κ) :
    normalize_single l (some 0) = normalize_single l none
    ∧ normalize_multi fill limits key (some 0) = normalize_multi fill limits key none
    ∧ (∀ scfg, normalize_single l (some 0) = Except.ok scfg →
        scfg.timeout = max 10 (scfg.minimum * 10)
        ∧ scfg.expire = max (10 * scfg.minimum) 10) := by
  refine ⟨?_, ?_, ?_⟩
  · simp [normalize_single, pyOr]
  · simp [normalize_multi, pyOr]
  · intro scfg h
    rw [normalize_single] at h
    split at h
    · exact absurd h (by simp)
    · rw [Except.ok.injEq] at h
      subst h
      simp [pyOr]

/-- Concrete instance: a record at t = 2 with minimum interval 1 denies at
now = 5/2 and permits at now = 7/2. -/
theorem C1_witness :
    0 < (single_gate (fun _ => some 2 : Cache) 1 (2 + 1 - 1/2) 7 "b").delay
    ∧ (single_gate (fun _ => some 2 : Cache) 1 (2 + 1 + 1/2) 7 "b").delay = 0 :=
  ⟨(C1_single_gate_eval (fun _ => some 2) 1 7 0 2 (1/2) "b" rfl (by norm_num)).2.2.2.1,
   (C1_single_gate_eval (fun _ => some 2) 1 7 0 2 (1/2) "b" rfl (by norm_num)).2.2.2.2⟩

/-- Concrete instance: a blocking first limit stops a one-element pass with
its delay and only a get in the trace. -/
theorem C2_witness :
    multi_gate [((1 : ℚ), "a", 5)] (fun _ => none) 0 []
      = (gateDelay (fun _ => none) 1 0 "a", (fun _ => none : Cache), [CacheOp.get "a"]) :=
  (C2_multi_gate_pass 1 5 0 "a" [] (fun _ => none) [] (by simp)).1
    (by norm_num [gateDelay, cacheGet])

/-- Concrete instance: a limit whose key is already in the seen set is
skipped with no state change. -/
theorem C3_witness :
    multi_gate [((1 : ℚ), "a", 5)] (fun _ => none) 0 ["a"]
      = multi_gate [] (fun _ => none) 0 ["a"] :=
  (C3_duplicate_key_skipped [] [] 1 5 0 "a" "a" (fun _ => none) (fun _ => none) ["a"]
    (by simp)).1

/-- Concrete instance: with start 0, timeout 1 and the clock at 5, the loop
raises the timeout carrying the key and the elapsed duration. -/
theorem C4_witness :
    single_loop 1 5 1 true 0 0 "a" (fun _ => true) (fun _ => 5) 0 (0 + 1) 1 (fun _ => none)
      = (LoopOut.throttleTimeout (Label.one "a") (5 - 0), (fun _ => none : Cache)) :=
  ((C4_deadline_check 1 5 1 true 0 0 "a" [] (fun _ => true) (fun _ => 5) 0 0 1
    (fun _ => none) rfl).1 (by norm_num)).2.1

/-- Concrete instance: with retry disabled and an occupied bucket, both
variants return the marker 7, never running the body (funcCalls = 0). -/
theorem C5_witness :
    single_invoke 1 5 10 false 7 3 (some "a") (fun _ => true) (fun _ => 0) (0 + 1)
        (fun _ => some 0)
      = (LoopOut.value 0 7, (fun _ => some 0 : Cache))
    ∧ multi_invoke [((1 : ℚ), some "a", 5)] 10 false 7 3 (fun _ => true) (fun _ => 0)
        (0 + 1) (fun _ => some 0)
      = (LoopOut.value 0 7,
         (multi_gate (resolveLimits [((1 : ℚ), some "a", 5)]) (fun _ => some 0) 0 []).2.1) :=
  C5_noretry_marker 1 5 10 7 3 (some "a") [((1 : ℚ), some "a", 5)] (fun _ => true)
    (fun _ => 0) 0 (fun _ => some 0) rfl rfl (by norm_num)
    (by rw [single_gate_delay_eq]; norm_num [gateDelay, cacheGet])
    rfl
    (by norm_num [resolveLimits, truthy, multi_gate, gateDelay, cacheGet])

/-- Concrete instance: an always-failing lock produces the lock error. -/
theorem C6_witness :
    single_invoke 1 5 10 true 7 3 (some "a") (fun _ => false) (fun _ => 0) (0 + 1)
        (fun _ => none)
      = (LoopOut.lockError, (fun _ => none : Cache)) :=
  (C6_lock_failure 1 5 10 true 7 3 (some "a") [((1 : ℚ), some "a", 5)] (fun _ => false)
    (fun _ => 0) 0 (fun _ => none) (fun _ => rfl) rfl rfl).1

/-- Concrete instance: the rate list [2] with no key resolvers and no
timeout normalizes successfully. -/
theorem C7_witness :
    exceptOk (normalize_multi (0 : ℕ) [2] (KeyArg.many []) none) = true :=
  (C7_amended_wrap_errors (0 : ℕ) 2 none [2] (KeyArg.many [])).2.mpr
    ⟨by simp [coerceKeys], by simp, by norm_num⟩

/-- Concrete instance: the single rate 1 with no timeout yields expiry
max(10 * 1, pyOr none 10). -/
theorem C8_witness :
    (SingleConfig.mk 1 10 10).expire
      = max (10 * (SingleConfig.mk 1 10 10).minimum) (pyOr none 10) :=
  (C8_amended_expiry (0 : ℕ) [1] (KeyArg.many []) none 1 ⟨[(1, 0, 10)], 10⟩ ⟨1, 10, 10⟩
    (by rw [normalize_multi]; norm_num [coerceKeys, listMax, pyOr, padTo, zip3])
    (by rw [normalize_single]; norm_num [pyOr])).2.1

/-- Concrete instance: with every key resolving falsy, both variants run
the body once, untouched cache, even with an always-failing lock. -/
theorem C9_witness :
    single_invoke 1 5 10 true 7 3 none (fun _ => false) (fun _ => 0) 2 (fun _ => none)
      = (LoopOut.value 1 3, (fun _ => none : Cache))
    ∧ multi_invoke [((1 : ℚ), none, 5)] 10 true 7 3 (fun _ => false) (fun _ => 0) 2
        (fun _ => none)
      = (LoopOut.value 1 3, (fun _ => none : Cache)) :=
  C9_optout_runs_unthrottled 1 5 10 true 7 3 none [((1 : ℚ), none, 5)] (fun _ => false)
    (fun _ => 0) 2 (fun _ => none) rfl
    (by intro x hx; rw [List.mem_singleton] at hx; subst hx; rfl)

/-- Concrete instance: rate 2 with an explicit timeout of 0 gets the
default effective timeout and the 10-second expiry floor. -/
theorem C10_witness :
    (SingleConfig.mk (1/2) 10 10).timeout
        = max 10 ((SingleConfig.mk (1/2) 10 10).minimum * 10)
    ∧ (SingleConfig.mk (1/2) 10 10).expire
        = max (10 * (SingleConfig.mk (1/2) 10 10).minimum) 10 :=
  (C10_falsy_timeout 2 (0 : ℕ) [] (KeyArg.many [])).2.2 ⟨1/2, 10, 10⟩
    (by rw [normalize_single]; norm_num [pyOr])

end Throttle
